import Mathlib

/-!
Verification of the violet-webhook event-processing pipeline.

The Python sources (`violet_core.py`, `dead_letter.py`, `app.py`,
`salesforce_client.py`) are shallowly embedded below.  Effectful calls
(HTTP requests, credential fetches, SOQL queries) are passed in as
oracles returning `Except String _`, where `.error msg` models a Python
exception with message `msg` propagating out of the call.  Python
strings are Lean `String`s, but every string operation used by the code
(`split`, `startswith`, `strip`, slicing, `in`) is re-implemented over
`String.data` so that all definitions evaluate inside the kernel.
Python dict access `d.get(k, default)` with a constant default is
collapsed into a plain field holding the default when the key is
absent; the one place where key-absence is observable (the
`candidate_id` fallback from dynamic variables to metadata) keeps an
`Option` field.
-/

instance {e a : Type} [DecidableEq e] [DecidableEq a] : DecidableEq (Except e a)
  | .error x, .error y =>
    if h : x = y then isTrue (by rw [h]) else isFalse (fun hh => h (Except.error.inj hh))
  | .ok x, .ok y =>
    if h : x = y then isTrue (by rw [h]) else isFalse (fun hh => h (Except.ok.inj hh))
  | .error _, .ok _ => isFalse Except.noConfusion
  | .ok _, .error _ => isFalse Except.noConfusion

/-- Python `s[:n]` (also `str.take`): first `n` characters. -/
def pyTake (n : Nat) (s : String) : String := ⟨s.data.take n⟩

/-- Python `len(s)` in characters. -/
def pyLen (s : String) : Nat := s.data.length

/-- Python `s.startswith(p)`. -/
def pyStartsWith (s p : String) : Bool := p.data.isPrefixOf s.data

/-- Scanner for Python `str.split(sep)` over character lists: `cur` is the
chunk being built (reversed), `skip` the number of characters of an
already-matched separator still to consume.  Structurally recursive on
the scanned list so that it evaluates inside the kernel. -/
def splitGo (sep : List Char) : Nat → List Char → List Char → List (List Char)
  | _, cur, [] => [cur.reverse]
  | 0, cur, c :: cs =>
    if sep.isPrefixOf (c :: cs) then
      cur.reverse :: splitGo sep (sep.length - 1) [] cs
    else splitGo sep 0 (c :: cur) cs
  | skip + 1, cur, _ :: cs => splitGo sep skip cur cs

/-- Python `s.split(sep)` for a nonempty separator (always returns at
least one chunk). -/
def pySplit (sep s : String) : List String :=
  match sep.data with
  | [] => [s]
  | c :: cs => (splitGo (c :: cs) 0 [] s.data).map (fun l => ⟨l⟩)

/-- Python `needle in hay` (substring test), characterized via `split`. -/
def pyContains (needle hay : String) : Bool := (pySplit needle hay).length > 1

/-- Python whitespace as stripped by `str.strip()` (the subset relevant to
the dead-letter log lines). -/
def pySpace (c : Char) : Bool := c == ' ' || c == '\t' || c == '\n' || c == '\r'

/-- Python `s.strip()`. -/
def pyStrip (s : String) : String :=
  ⟨((s.data.dropWhile pySpace).reverse.dropWhile pySpace).reverse⟩

/-- Python `lst[i]` where the caller has ensured `i` is in range
(out-of-range collapses to `""`, never reached in the embedded code). -/
def pyIndex (l : List String) (i : Nat) : String := l.getD i ""

/-- Python `lst[0]` on the (always nonempty) result of `str.split`. -/
def pyHead (l : List String) : String := l.headD ""

-- ════════════════════════════════════════════════════════════════════
-- Data model of the inbound chat payload (violet_core.py reads)
-- ════════════════════════════════════════════════════════════════════

/-- `chat['retell_llm_dynamic_variables']`.  `candidate_id` is `Option`
because `dv.get('candidate_id', meta.get(...))` distinguishes an absent
key from an empty value; the other keys are read with constant defaults. -/
structure DynamicVars where
  candidate_id : Option String := none
  candidate_salesforce_url : String := ""
  job_salesforce_url : String := ""
  job_ID_18 : String := ""
  job_title : String := ""
  job_city : String := ""
  job_state : String := ""
deriving DecidableEq, Repr

/-- `chat['metadata']` — only `candidate_id` is read, via `.get(_, '')`. -/
structure ChatMetadata where
  candidate_id : String := ""
deriving DecidableEq, Repr

/-- `chat_analysis['custom_analysis_data']` when the dict is nonempty.
An empty or absent dict is modelled as `none` at the use site. -/
structure CustomAnalysis where
  opted_out : Bool := false
  qualification_result : String := ""
  interest_level : String := ""
  conversation_summary : String := ""
deriving DecidableEq, Repr

/-- `chat['chat_analysis']`; `custom_analysis_data = none` models
`ca.get('custom_analysis_data') or {}` being empty (Python falsy). -/
structure ChatAnalysis where
  custom_analysis_data : Option CustomAnalysis := none
  chat_summary : String := ""
deriving DecidableEq, Repr

/-- The inbound chat payload, restricted to the fields the pipeline
reads.  An absent `chat_id` key is modelled directly as the `.get`
default `"unknown"`. -/
structure Chat where
  chat_id : String := "unknown"
  agent_name : String := ""
  chat_status : String := ""
  chat_analysis : ChatAnalysis := {}
  retell_llm_dynamic_variables : DynamicVars := {}
  metadata : ChatMetadata := {}
deriving DecidableEq, Repr

-- ════════════════════════════════════════════════════════════════════
-- violet_core.py — classifier and extractors
-- ════════════════════════════════════════════════════════════════════

def STAGE_QUALIFIED : String := "New Application"

def STAGE_INTERESTED : String := "Candidate Interested"

def SYNC_QUAL_RESULTS : List String := ["fully_qualified", "partially_qualified"]

def SYNC_INTEREST_LEVELS : List String := ["very_interested", "somewhat_interested"]

def SKIP_AGENTS : List String :=
  ["SMS Violet - EMR Trainer Outreach", "Violet - MedPro Inbound Lead Agent"]

/-- `violet_core.classify_chat`: returns the Python pair
`('qualified'|'interested'|'skip', stage_or_reason)`. -/
def classify_chat (chat : Chat) : String × String :=
  let agent := chat.agent_name
  if agent ∈ SKIP_AGENTS then ("skip", "agent skipped: " ++ agent)
  else if chat.chat_status = "ongoing" then ("skip", "chat still ongoing")
  else
    match chat.chat_analysis.custom_analysis_data with
    | none => ("skip", "no analysis data")
    | some custom =>
      if custom.opted_out then ("skip", "opted out")
      else
        let qual := custom.qualification_result
        if qual ∈ SYNC_QUAL_RESULTS then ("qualified", STAGE_QUALIFIED)
        else
          let interest := custom.interest_level
          if interest ∈ SYNC_INTEREST_LEVELS then ("interested", STAGE_INTERESTED)
          else
            ("skip", "not qualified/interested (qual=" ++ qual ++ ", interest="
              ++ interest ++ ")")

/-- `violet_core.extract_contact_id`: direct field (dynamic variables,
falling back to metadata when the key is absent), then the Contact
deep-link URL; both candidates must start with `003` and have length
at least 15. -/
def extract_contact_id (chat : Chat) : String :=
  let dv := chat.retell_llm_dynamic_variables
  let meta := chat.metadata
  let cid := dv.candidate_id.getD meta.candidate_id
  if cid ≠ "" ∧ pyStartsWith cid "003" ∧ 15 ≤ pyLen cid then cid
  else
    let url := dv.candidate_salesforce_url
    if url ≠ "" ∧ pyContains "/Contact/" url then
      let extracted := pyHead (pySplit "/" (pyIndex (pySplit "/Contact/" url) 1))
      if pyStartsWith extracted "003" ∧ 15 ≤ pyLen extracted then extracted else ""
    else ""

/-- `violet_core.extract_job_id`: the Job deep-link URL is tried first
and its path segment is returned without any pattern check; the direct
`job_ID_18` field is tried second, checked only for the `a0F` prefix. -/
def extract_job_id (chat : Chat) : String :=
  let dv := chat.retell_llm_dynamic_variables
  let url := dv.job_salesforce_url
  if url ≠ "" ∧ pyContains "/AVTRRT__Job__c/" url then
    pyHead (pySplit "/" (pyIndex (pySplit "/AVTRRT__Job__c/" url) 1))
  else
    let j18 := dv.job_ID_18
    if j18 ≠ "" ∧ pyStartsWith j18 "a0F" then j18 else ""

example : pySplit "/Contact/" "https://x/Contact/003ABCDEFGHIJKL/view"
    = ["https://x", "003ABCDEFGHIJKL/view"] := by decide
example : pyStartsWith "003ABCDEFGHIJKL" "003" = true := by decide
example : pyStrip "  x " = "x" := by decide
example :
    extract_job_id { retell_llm_dynamic_variables :=
      { job_salesforce_url := "https://x/AVTRRT__Job__c/ZZZ/view",
        job_ID_18 := "a0F4z00000AbCdEfGh" } } = "ZZZ" := by decide

-- ════════════════════════════════════════════════════════════════════
-- violet_core.py — Salesforce-facing operations (effects as oracles)
-- ════════════════════════════════════════════════════════════════════

/-- One row returned by the dedup SOQL query; field names follow the
queried columns `AVTRRT__Contact_Candidate__c` / `AVTRRT__Job__c`
(read via `.get(_, '')`). -/
structure SFRec where
  contact_candidate : String := ""
  job : String := ""
deriving DecidableEq, Repr

/-- One element of the `composite/sobjects` JSON response array; the
`errors` field holds `str(result.get('errors', []))`, i.e. the already
stringified error list. -/
structure ApiResult where
  success : Bool := false
  id : String := ""
  errors : String := "[]"
deriving DecidableEq, Repr

/-- Outcome of one `requests.post` call in `create_job_applicant`:
a response, a `requests.exceptions.ReadTimeout`, or any other exception
(only `ReadTimeout` is caught by the source). -/
inductive PostOutcome where
  | resp (status_code : Nat) (text : String) (results : List ApiResult)
  | timeout
  | exn (msg : String)
deriving DecidableEq, Repr

/-- The effect environment of one pipeline run.  `creds i` is the result
of the i-th `get_salesforce_credentials()` call made by
`create_job_applicant`; `post i` the i-th `requests.post` of the create
loop; `query b` the result of `sf_query_all` for batch `b`.
`.error msg` models a raised exception. -/
structure Oracles where
  creds : Nat → Except String (String × String)
  post : Nat → PostOutcome
  query : List String → Except String (List SFRec)

/-- The dict returned by `create_job_applicant` (either an
`applicant_id` or an `error` key is populated). -/
structure CreateRes where
  applicant_id : String := ""
  error : String := ""
deriving DecidableEq, Repr

/-- Side-effect trace of `create_job_applicant`: HTTP attempts issued,
`get_salesforce_credentials` calls, and `time.sleep(2)` pauses. -/
structure CTrace where
  attempts : Nat := 0
  credCalls : Nat := 0
  sleeps : Nat := 0
deriving DecidableEq, Repr

/-- Response handling after the retry loop of `create_job_applicant`
(lines 169-181): HTTP 200 checks the first element's `success` flag;
an empty response array makes `api_results[0]` raise (modelled as an
`IndexError` exception); non-200 yields the `HTTP <code>` error. -/
def handle_create_response (status_code : Nat) (text : String)
    (results : List ApiResult) : Except String (Bool × CreateRes) :=
  if status_code = 200 then
    match results with
    | [] => .error "IndexError: list index out of range"
    | result :: _ =>
      if result.success then .ok (true, { applicant_id := result.id })
      else .ok (false, { error := result.errors })
  else .ok (false, { error := "HTTP " ++ toString status_code ++ ": " ++ pyTake 300 text })

/-- `violet_core.create_job_applicant`: the `for attempt in range(3)`
retry loop unrolled.  Only `ReadTimeout` is caught; before each retry
credentials are refreshed and a fixed `time.sleep(2)` backoff runs;
after the third consecutive timeout the function returns
`(False, {'error': 'timeout after 3 attempts'})`. -/
def create_job_applicant (o : Oracles) : Except String (Bool × CreateRes) × CTrace :=
  match o.creds 0 with
  | .error e => (.error e, { credCalls := 1 })
  | .ok _ =>
    match o.post 0 with
    | .resp sc tx rs => (handle_create_response sc tx rs, { attempts := 1, credCalls := 1 })
    | .exn m => (.error m, { attempts := 1, credCalls := 1 })
    | .timeout =>
      match o.creds 1 with
      | .error e => (.error e, { attempts := 1, credCalls := 2 })
      | .ok _ =>
        match o.post 1 with
        | .resp sc tx rs =>
          (handle_create_response sc tx rs, { attempts := 2, credCalls := 2, sleeps := 1 })
        | .exn m => (.error m, { attempts := 2, credCalls := 2, sleeps := 1 })
        | .timeout =>
          match o.creds 2 with
          | .error e => (.error e, { attempts := 2, credCalls := 3, sleeps := 1 })
          | .ok _ =>
            match o.post 2 with
            | .resp sc tx rs =>
              (handle_create_response sc tx rs, { attempts := 3, credCalls := 3, sleeps := 2 })
            | .exn m => (.error m, { attempts := 3, credCalls := 3, sleeps := 2 })
            | .timeout =>
              (.ok (false, { error := "timeout after 3 attempts" }),
                { attempts := 3, credCalls := 3, sleeps := 2 })

/-- Batch splitter mirroring `for i in range(0, len(unique_ids), 25)`:
`cap` is the remaining capacity of the chunk being built (reversed in
`cur`); structurally recursive for kernel evaluation. -/
def chunkGo (n : Nat) : Nat → List String → List String → List (List String)
  | _, cur, [] => if cur.isEmpty then [] else [cur.reverse]
  | 0, cur, x :: xs => cur.reverse :: chunkGo n (n - 1) [x] xs
  | cap + 1, cur, x :: xs => chunkGo n cap (x :: cur) xs

/-- The batches of at most 25 ids taken by `check_existing_applicants`. -/
def chunk25 (l : List String) : List (List String) := chunkGo 25 25 [] l

/-- The pairs contributed by one successful batch query (lines 112-116):
rows with both columns non-empty, truncated to 15 characters. -/
def batchPairs (recs : List SFRec) : List (String × String) :=
  (recs.filter (fun r => r.contact_candidate ≠ "" && r.job ≠ "")).map
    (fun r => (pyTake 15 r.contact_candidate, pyTake 15 r.job))

/-- `violet_core.check_existing_applicants`: deduplicate the input ids
(`list(set(contact_ids))`, determinized as first-occurrence order),
query each ≤25-id batch, and union the normalized pairs; a failed batch
query is logged and skipped (fail-open).  Also returns the number of
queries issued. -/
def check_existing_applicants (contact_ids : List String)
    (query : List String → Except String (List SFRec)) :
    Finset (String × String) × Nat :=
  let unique_ids := contact_ids.dedup
  let batches := chunk25 unique_ids
  (batches.foldl
    (fun existing batch =>
      match query batch with
      | .ok records => existing ∪ (batchPairs records).toFinset
      | .error _ => existing)
    ∅, batches.length)

/-- The orchestrator's result dict; keys that a given path never sets
keep their defaults (readers access them via `.get`). -/
structure PResult where
  chat_id : String := "unknown"
  action : String := ""
  detail : String := ""
  contact_id : String := ""
  job_id : String := ""
  sf_result : CreateRes := {}
deriving DecidableEq, Repr

/-- `violet_core.process_chat_webhook`: classify → extract → dedup →
create → notify.  The notify sink is effect-only and cannot change
control flow, so it is not modelled; the function has **no** exception
handler, so any exception from the create step (`.error`) propagates
to the caller. -/
def process_chat_webhook (chat : Chat) (o : Oracles) : Except String PResult :=
  let chat_id := chat.chat_id
  let (action, detail) := classify_chat chat
  if action = "skip" then .ok { chat_id, action, detail }
  else
    let contact_id := extract_contact_id chat
    let job_id := extract_job_id chat
    if contact_id = "" then
      .ok { chat_id, action := "skip", detail := "no contact ID in chat data",
            contact_id, job_id }
    else if job_id = "" then
      .ok { chat_id, action := "skip", detail := "no job ID in chat data",
            contact_id, job_id }
    else
      let existing := (check_existing_applicants [contact_id] o.query).1
      if (pyTake 15 contact_id, pyTake 15 job_id) ∈ existing then
        .ok { chat_id, action := "duplicate",
              detail := "job applicant already exists in SF", contact_id, job_id }
      else
        match create_job_applicant o with
        | (.error e, _) => .error e
        | (.ok (success, sf_result), _) =>
          if success then
            .ok { chat_id, action := "created",
                  detail := "Job Applicant " ++ sf_result.applicant_id ++ " created",
                  contact_id, job_id, sf_result }
          else
            .ok { chat_id, action := "error",
                  detail := if sf_result.error = "" then "unknown SF error" else sf_result.error,
                  contact_id, job_id, sf_result }

-- ════════════════════════════════════════════════════════════════════
-- dead_letter.py — append-only failure log
-- ════════════════════════════════════════════════════════════════════

def quoteC : Char := Char.ofNat 34

def backslashC : Char := Char.ofNat 92

def lbraceC : Char := Char.ofNat 123

def rbraceC : Char := Char.ofNat 125

/-- Skip JSON whitespace. -/
def jsonSkipWs : List Char → List Char
  | [] => []
  | c :: cs => if pySpace c then jsonSkipWs cs else c :: cs

/-- Consume a JSON string body after its opening quote (escapes skip the
next character; escape-code validation is not modelled). -/
def parseStrTail : List Char → Option (List Char)
  | [] => none
  | c :: cs =>
    if c = quoteC then some cs
    else if c = backslashC then
      match cs with
      | [] => none
      | _ :: cs2 => parseStrTail cs2
    else parseStrTail cs

/-- Consume an expected literal character sequence. -/
def dropPre : List Char → List Char → Option (List Char)
  | [], l => some l
  | _ :: _, [] => none
  | p :: ps, c :: cs => if p = c then dropPre ps cs else none

/-- Consume a JSON number (sign, digits, optional fraction/exponent). -/
def parseNum (cs : List Char) : Option (List Char) :=
  let cs1 := match cs with
    | c :: rest => if c = '-' then rest else cs
    | [] => cs
  let ds := cs1.takeWhile Char.isDigit
  let r := cs1.dropWhile Char.isDigit
  if ds.isEmpty then none
  else
    let r2opt : Option (List Char) :=
      match r with
      | c :: rest =>
        if c = '.' then
          if (rest.takeWhile Char.isDigit).isEmpty then none
          else some (rest.dropWhile Char.isDigit)
        else some r
      | [] => some r
    match r2opt with
    | none => none
    | some r2 =>
      match r2 with
      | c :: rest =>
        if c = 'e' ∨ c = 'E' then
          let rest2 := match rest with
            | c2 :: rr => if c2 = '+' ∨ c2 = '-' then rr else rest
            | [] => rest
          if (rest2.takeWhile Char.isDigit).isEmpty then none
          else some (rest2.dropWhile Char.isDigit)
        else some r2
      | [] => some r2

/-- Consume `true`, `false` or `null`. -/
def parseLit (cs : List Char) : Option (List Char) :=
  match dropPre "true".data cs with
  | some r => some r
  | none =>
    match dropPre "false".data cs with
    | some r => some r
    | none => dropPre "null".data cs

/-- Parse position within a JSON document for the fuel-indexed parser. -/
inductive JMode where
  | val | objBody | member | objTail | arrBody | arrTail
deriving DecidableEq, Repr

/-- Fuel-indexed recursive-descent consumer for JSON documents, used to
model which dead-letter lines `json.loads` accepts. -/
def parseJ : Nat → JMode → List Char → Option (List Char)
  | 0, _, _ => none
  | f + 1, .val, cs =>
    match jsonSkipWs cs with
    | [] => none
    | c :: rest =>
      if c = quoteC then parseStrTail rest
      else if c = lbraceC then parseJ f .objBody rest
      else if c = '[' then parseJ f .arrBody rest
      else if c = '-' ∨ c.isDigit then parseNum (c :: rest)
      else parseLit (c :: rest)
  | f + 1, .objBody, cs =>
    match jsonSkipWs cs with
    | [] => none
    | c :: rest =>
      if c = rbraceC then some rest
      else parseJ f .member (c :: rest)
  | f + 1, .member, cs =>
    match jsonSkipWs cs with
    | [] => none
    | c :: rest =>
      if c = quoteC then
        match parseStrTail rest with
        | none => none
        | some afterKey =>
          match jsonSkipWs afterKey with
          | [] => none
          | c2 :: r2 =>
            if c2 = ':' then
              match parseJ f .val r2 with
              | none => none
              | some afterVal => parseJ f .objTail afterVal
            else none
      else none
  | f + 1, .objTail, cs =>
    match jsonSkipWs cs with
    | [] => none
    | c :: rest =>
      if c = rbraceC then some rest
      else if c = ',' then parseJ f .member rest
      else none
  | f + 1, .arrBody, cs =>
    match jsonSkipWs cs with
    | [] => none
    | c :: rest =>
      if c = ']' then some rest
      else
        match parseJ f .val (c :: rest) with
        | none => none
        | some afterVal => parseJ f .arrTail afterVal
  | f + 1, .arrTail, cs =>
    match jsonSkipWs cs with
    | [] => none
    | c :: rest =>
      if c = ']' then some rest
      else if c = ',' then
        match parseJ f .val rest with
        | none => none
        | some afterVal => parseJ f .arrTail afterVal
      else none

/-- Models whether `json.loads(line)` succeeds: the line is one JSON
document with nothing but whitespace after it. -/
def json_wf (s : String) : Bool :=
  match parseJ (4 * pyLen s + 8) .val s.data with
  | some rest => (jsonSkipWs rest).isEmpty
  | none => false

/-- `dead_letter.count` over the file's lines: counts every line whose
`strip()` is non-empty, well-formed or not. -/
def dl_count (lines : List String) : Nat :=
  lines.countP (fun l => pyStrip l != "")

/-- `dead_letter.read_all` over the file's lines: a stripped non-empty
line is parsed; lines `json.loads` rejects are silently skipped.  The
entry is represented by its serialized line. -/
def dl_read_all (lines : List String) : List String :=
  lines.filterMap (fun l =>
    let s := pyStrip l
    if s == "" then none
    else if json_wf s then some s else none)

/-- The `record` argument of `dead_letter.append` — the four keys read
via `.get(_, '')`. -/
structure RecordView where
  contact_id : String := ""
  job_id : String := ""
  stage : String := ""
  tier : String := ""
deriving DecidableEq, Repr

/-- A persisted dead-letter entry (timestamp omitted — no claim reads it). -/
structure DLEntry where
  chat_id : String := "unknown"
  contact_id : String := ""
  job_id : String := ""
  stage : String := ""
  tier : String := ""
  error : String := ""
  chat_payload : Chat := {}
deriving DecidableEq, Repr

/-- `dead_letter.append`: the entry built from chat / attempted record /
error text (lines 25-34). -/
def dl_append_entry (chat : Chat) (record : RecordView) (err : String) : DLEntry :=
  { chat_id := chat.chat_id, contact_id := record.contact_id,
    job_id := record.job_id, stage := record.stage, tier := record.tier,
    error := err, chat_payload := chat }

-- ════════════════════════════════════════════════════════════════════
-- app.py — webhook handler and replay route
-- ════════════════════════════════════════════════════════════════════

/-- `app.verify_retell_signature`; `hmacFn key body` stands for the
HMAC-SHA256 hexdigest of `body` under `key` (the digest computation is
the only part not embedded; `hmac.compare_digest` is string equality). -/
def verify_retell_signature (api_key : String) (hmacFn : String → String → String)
    (payload_body sig : String) : Bool :=
  if api_key = "" then true
  else if sig = "" then false
  else hmacFn api_key payload_body == sig

/-- The parse of the webhook body: `json.loads` plus
`payload.get('data', payload.get('chat', payload))` collapsed into the
resolved chat. -/
structure Payload where
  event : String := ""
  chat : Chat := {}
deriving DecidableEq, Repr

/-- Observable outcome of one `webhook_retell` call: HTTP status,
`_record_event` stats updates (event type, detail), `dead_letter.append`
calls, and how many times the orchestrator ran. -/
structure WebhookOut where
  status : Nat := 204
  events : List (String × String) := []
  dl : List DLEntry := []
  orch : Nat := 0
deriving DecidableEq, Repr

/-- `app.webhook_retell`: verify signature, parse, filter on event type,
run the orchestrator inside try/except.  An `'error'` result is
dead-lettered; an exception from the orchestrator is caught, recorded as
an `'error'` stats event and dead-lettered with the bare chat_id record;
the route answers 204 on every processing path. -/
def webhook_retell (api_key : String) (hmacFn : String → String → String)
    (parseFn : String → Option Payload) (o : Oracles)
    (raw_body sig : String) : WebhookOut :=
  if !(verify_retell_signature api_key hmacFn raw_body sig) then { status := 401 }
  else
    match parseFn raw_body with
    | none => { status := 400 }
    | some payload =>
      if payload.event ≠ "chat_analyzed" then { status := 204 }
      else
        let chat := payload.chat
        match process_chat_webhook chat o with
        | .ok result =>
          { status := 204, orch := 1,
            events := [(result.action, result.detail)],
            dl := if result.action = "error" then
                [dl_append_entry chat
                  { contact_id := result.contact_id, job_id := result.job_id }
                  result.detail]
              else [] }
        | .error e =>
          { status := 204, orch := 1, events := [("error", e)],
            dl := [dl_append_entry chat {} e] }

/-- One row of the replay report. -/
structure RetryRow where
  chat_id : String
  action : String
  detail : String
deriving DecidableEq, Repr

/-- Observable outcome of `retry_failed`: the JSON counters, the per-entry
rows, every `dead_letter.append` the replay path performs (the source
performs none), the entries `clear()` moved to the archive, and the live
store left behind. -/
structure RetryOut where
  retried : Nat := 0
  created : Nat := 0
  failed : Nat := 0
  results : List RetryRow := []
  dl_appends : List DLEntry := []
  archived : List DLEntry := []
  store : List DLEntry := []
deriving DecidableEq, Repr

/-- `app.retry_failed` over the already-parsed store entries (`read_all`
and line parsing are modelled separately): each entry's original chat
payload is re-fed to the orchestrator inside try/except, then `clear()`
archives the whole store; failures during replay are *not* re-appended. -/
def retry_failed (entries : List DLEntry) (o : Oracles) : RetryOut :=
  if entries.isEmpty then { store := entries }
  else
    let results := entries.map (fun entry =>
      match process_chat_webhook entry.chat_payload o with
      | .ok result => RetryRow.mk entry.chat_id result.action result.detail
      | .error e => RetryRow.mk entry.chat_id "error" (pyTake 200 e))
    { retried := results.length,
      created := results.countP (fun r => r.action == "created"),
      failed := results.countP (fun r => r.action == "error"),
      results := results,
      dl_appends := [],
      archived := entries,
      store := [] }

-- ════════════════════════════════════════════════════════════════════
-- salesforce_client.py — credential resolution with caching
-- ════════════════════════════════════════════════════════════════════

/-- The environment variables the client reads (`""` = unset, matching
`os.environ.get(_, "")` truthiness). -/
structure SfEnv where
  sf_access_token : String := ""
  sf_instance_url : String := ""
  replit_connectors_hostname : String := ""
  repl_identity : String := ""
  web_repl_renewal : String := ""
  sf_client_id : String := ""
  sf_client_secret : String := ""
  sf_refresh_token : String := ""
  sf_username : String := ""
  sf_password : String := ""
  sf_security_token : String := ""
  sf_token_cache_ttl : Nat := 1800
deriving DecidableEq, Repr

/-- The module-level token cache (`_cached_token`, `_cached_instance`,
`_token_fetched_at`); time is an abstract `Nat` of seconds. -/
structure TokenState where
  cached_token : Option String := none
  cached_instance : String := ""
  token_fetched_at : Option Nat := none
deriving DecidableEq, Repr

/-- Response of an OAuth token endpoint call (fields used by the code). -/
structure OAuthResp where
  status : Nat := 200
  access_token : String := ""
  instance_url : String := ""
deriving DecidableEq, Repr

/-- Network oracle of one resolution pass: the connector metadata call
(with JSON field extraction collapsed into the returned pair), the
`/limits` probe status, and the two OAuth token calls.  `.error` is a
raised requests exception. -/
structure SfOracle where
  connector : Except String (Option String × Option String) := .error "unused"
  probe : Except String Nat := .error "unused"
  oauth : Except String OAuthResp := .error "unused"
  password : Except String OAuthResp := .error "unused"

/-- Side-effect trace of one `get_salesforce_credentials` call: network
requests issued and the index of the last auth strategy evaluated
(0 = cache hit, no strategy ran). -/
structure SfTrace where
  network : Nat := 0
  strategies : Nat := 0
deriving DecidableEq, Repr

def noCredsMsg : String :=
  "No Salesforce credentials configured. Set one of:\n" ++
  "  A) SF_ACCESS_TOKEN + SF_INSTANCE_URL (token mode)\n" ++
  "  B) REPLIT_CONNECTORS_HOSTNAME (Replit mode)\n" ++
  "  C) SF_CLIENT_ID + SF_CLIENT_SECRET + SF_REFRESH_TOKEN (refresh token — recommended)\n" ++
  "  D) SF_CLIENT_ID + SF_CLIENT_SECRET + SF_USERNAME + SF_PASSWORD + SF_SECURITY_TOKEN (direct OAuth)"

/-- `_refresh_via_connector`: no identity token or no hostname returns
`(None, None)` without a network call; otherwise one metadata request.
Returns the result and the number of network calls. -/
def refresh_via_connector (env : SfEnv) (o : SfOracle) :
    Except String (Option String × Option String) × Nat :=
  if env.repl_identity = "" ∧ env.web_repl_renewal = "" then (.ok (none, none), 0)
  else if env.replit_connectors_hostname = "" then (.ok (none, none), 0)
  else
    match o.connector with
    | .error e => (.error e, 1)
    | .ok pair => (.ok pair, 1)

/-- `_refresh_via_oauth` (mode 3): missing config raises; otherwise one
token request; non-200 raises (the body detail in the message is
abbreviated to the status code). -/
def refresh_via_oauth (env : SfEnv) (o : SfOracle) :
    Except String (String × String) × Nat :=
  if env.sf_client_id = "" ∨ env.sf_client_secret = "" ∨ env.sf_refresh_token = "" then
    (.error "Refresh Token mode requires: SF_CLIENT_ID, SF_CLIENT_SECRET, SF_REFRESH_TOKEN", 0)
  else
    match o.oauth with
    | .error e => (.error e, 1)
    | .ok resp =>
      if resp.status ≠ 200 then
        (.error ("Salesforce refresh token auth failed (" ++ toString resp.status ++ ")"), 1)
      else (.ok (resp.access_token, resp.instance_url), 1)

/-- `_refresh_via_password` (mode 4): `all([client_id, client_secret,
username])` gates the raise — the password itself is not checked. -/
def refresh_via_password (env : SfEnv) (o : SfOracle) :
    Except String (String × String) × Nat :=
  if env.sf_client_id = "" ∨ env.sf_client_secret = "" ∨ env.sf_username = "" then
    (.error ("Direct OAuth requires: SF_CLIENT_ID, SF_CLIENT_SECRET, SF_USERNAME, " ++
      "SF_PASSWORD, SF_SECURITY_TOKEN"), 0)
  else
    match o.password with
    | .error e => (.error e, 1)
    | .ok resp =>
      if resp.status ≠ 200 then
        (.error ("Salesforce OAuth failed (" ++ toString resp.status ++ ")"), 1)
      else (.ok (resp.access_token, resp.instance_url), 1)

/-- Modes 3 and 4 plus the final no-credentials raise; `netAcc` is the
network-call count accumulated by the earlier modes. -/
def sf_mode34 (env : SfEnv) (o : SfOracle) (now netAcc : Nat) :
    Except String (String × String) × Option TokenState × SfTrace :=
  if env.sf_refresh_token ≠ "" ∧ env.sf_client_id ≠ "" then
    match refresh_via_oauth env o with
    | (.error e, n) => (.error e, none, { network := netAcc + n, strategies := 3 })
    | (.ok (t, i), n) =>
      (.ok (t, i),
       some { cached_token := some t, cached_instance := i, token_fetched_at := some now },
       { network := netAcc + n, strategies := 3 })
  else if env.sf_client_id ≠ "" ∧ env.sf_username ≠ "" then
    match refresh_via_password env o with
    | (.error e, n) => (.error e, none, { network := netAcc + n, strategies := 4 })
    | (.ok (t, i), n) =>
      (.ok (t, i),
       some { cached_token := some t, cached_instance := i, token_fetched_at := some now },
       { network := netAcc + n, strategies := 4 })
  else (.error noCredsMsg, none, { network := netAcc, strategies := 4 })

/-- The full strategy chain of `get_salesforce_credentials` (the body
after a cache miss): static token, connector + probe inside try/except
(probe failure or any exception falls through), then modes 3/4.
Returns the result, the cache write (if any), and the trace. -/
def sf_chain (env : SfEnv) (o : SfOracle) (now : Nat) :
    Except String (String × String) × Option TokenState × SfTrace :=
  if env.sf_access_token ≠ "" ∧ env.sf_instance_url ≠ "" then
    (.ok (env.sf_access_token, env.sf_instance_url),
     some { cached_token := some env.sf_access_token,
            cached_instance := env.sf_instance_url, token_fetched_at := some now },
     { network := 0, strategies := 1 })
  else
    match refresh_via_connector env o with
    | (.ok (some token, some inst), n2) =>
      if token ≠ "" ∧ inst ≠ "" then
        match o.probe with
        | .ok st =>
          if st = 200 then
            (.ok (token, inst),
             some { cached_token := some token, cached_instance := inst,
                    token_fetched_at := some now },
             { network := n2 + 1, strategies := 2 })
          else sf_mode34 env o now (n2 + 1)
        | .error _ => sf_mode34 env o now (n2 + 1)
      else sf_mode34 env o now n2
    | (.ok _, n2) => sf_mode34 env o now n2
    | (.error _, n2) => sf_mode34 env o now n2

/-- `get_salesforce_credentials`: the cache hit requires a truthy
(non-empty) cached token and an age strictly below the TTL; on a miss
the chain runs, writing the cache only on success — an exception leaves
the module state untouched. -/
def get_salesforce_credentials (env : SfEnv) (o : SfOracle) (now : Nat)
    (st : TokenState) :
    Except String (String × String) × TokenState × SfTrace :=
  match st.cached_token, st.token_fetched_at with
  | some tok, some t =>
    if tok ≠ "" ∧ now - t < env.sf_token_cache_ttl then
      (.ok (tok, st.cached_instance), st, {})
    else
      let r := sf_chain env o now
      (r.1, r.2.1.getD st, r.2.2)
  | _, _ =>
    let r := sf_chain env o now
    (r.1, r.2.1.getD st, r.2.2)

/-- `_invalidate_token_cache`: clears the token and timestamp (but not
the cached instance URL). -/
def invalidate_token_cache (st : TokenState) : TokenState :=
  { st with cached_token := none, token_fetched_at := none }

-- ════════════════════════════════════════════════════════════════════
-- Claims
-- ════════════════════════════════════════════════════════════════════

/-- Claim C8: for every event whose lifecycle status field equals the
literal string "ongoing", classify_chat returns a Skip outcome,
regardless of the content of the analysis block (either the agent
skip-set rule or the ongoing rule fires, both yielding "skip"). -/
theorem c8_ongoing_always_skip (chat : Chat)
    (h : chat.chat_status = "ongoing") : (classify_chat chat).1 = "skip" := by
  simp only [classify_chat, h]
  split <;> simp

def chatOngoingW : Chat :=
  { chat_status := "ongoing",
    chat_analysis :=
      { custom_analysis_data :=
          some { qualification_result := "fully_qualified",
                 interest_level := "very_interested" } } }

/-- Witness for C8 at a concrete fully-qualifying but still-ongoing chat. -/
theorem c8_witness :
    chatOngoingW.chat_status = "ongoing" ∧ (classify_chat chatOngoingW).1 = "skip" :=
  ⟨rfl, c8_ongoing_always_skip chatOngoingW rfl⟩

def cJobUrl : Chat :=
  { retell_llm_dynamic_variables :=
      { job_salesforce_url := "https://x.my.salesforce.com/AVTRRT__Job__c/ZZZ/view",
        job_ID_18 := "a0F4z00000AbCdEfGh" } }

/-- Claim C10: extract_contact_id returns either "" or a string starting
with "003" of length at least 15; when the dynamic-variables block lacks
a candidate_id key the metadata block's value is used; and no analogous
prefix guarantee holds for extract_job_id's URL-derived values. -/
theorem c10_contact_id_shape :
    (∀ chat : Chat, extract_contact_id chat = "" ∨
      (pyStartsWith (extract_contact_id chat) "003" = true ∧
        15 ≤ pyLen (extract_contact_id chat))) ∧
    (∀ chat : Chat, chat.retell_llm_dynamic_variables.candidate_id = none →
      chat.metadata.candidate_id ≠ "" →
      pyStartsWith chat.metadata.candidate_id "003" = true →
      15 ≤ pyLen chat.metadata.candidate_id →
      extract_contact_id chat = chat.metadata.candidate_id) ∧
    (extract_job_id cJobUrl = "ZZZ" ∧ pyStartsWith "ZZZ" "a0F" = false) := by
  refine ⟨fun chat => ?_, fun chat h1 h2 h3 h4 => ?_, by decide⟩
  · simp only [extract_contact_id]
    split
    · next h => exact Or.inr ⟨h.2.1, h.2.2⟩
    · split
      · split
        · next h => exact Or.inr h
        · exact Or.inl rfl
      · exact Or.inl rfl
  · simp only [extract_contact_id, h1, Option.getD_none]
    rw [if_pos ⟨h2, h3, h4⟩]

def chatMetaW : Chat := { metadata := { candidate_id := "003ABCDEFGHIJKL" } }

/-- Witness for C10: the metadata fallback at a concrete chat whose
dynamic variables lack a candidate_id. -/
theorem c10_witness :
    extract_contact_id chatMetaW = "003ABCDEFGHIJKL" :=
  c10_contact_id_shape.2.1 chatMetaW rfl (by decide) (by decide) (by decide)

/-- Claim C3 counterexample: extract_job_id tries the deep-link URL
*first* — even when the direct job_ID_18 field holds a valid id — and
returns the URL path segment with no prefix/length check, so a value
not matching the a0F pattern is returned instead of "". -/
theorem c3_counterexample :
    extract_job_id cJobUrl = "ZZZ" ∧
    pyStartsWith "ZZZ" "a0F" = false ∧
    cJobUrl.retell_llm_dynamic_variables.job_ID_18 = "a0F4z00000AbCdEfGh" ∧
    pyStartsWith "a0F4z00000AbCdEfGh" "a0F" = true := by decide

/-- Claim C3 (amended): extract_contact_id tries the direct field first
and the URL second, returning "" unless the value matches the 003
prefix and ≥15-length pattern; extract_job_id instead tries the Job
deep-link URL *first*, returning its path segment unchecked, and the
direct job_ID_18 field second, checked only for the a0F prefix. -/
theorem c3_extractor_order :
    (∀ chat : Chat,
      (chat.retell_llm_dynamic_variables.candidate_id.getD chat.metadata.candidate_id ≠ "" ∧
        pyStartsWith (chat.retell_llm_dynamic_variables.candidate_id.getD
          chat.metadata.candidate_id) "003" = true ∧
        15 ≤ pyLen (chat.retell_llm_dynamic_variables.candidate_id.getD
          chat.metadata.candidate_id) →
        extract_contact_id chat =
          chat.retell_llm_dynamic_variables.candidate_id.getD chat.metadata.candidate_id) ∧
      (extract_contact_id chat = "" ∨
        (pyStartsWith (extract_contact_id chat) "003" = true ∧
          15 ≤ pyLen (extract_contact_id chat)))) ∧
    (∀ chat : Chat,
      (chat.retell_llm_dynamic_variables.job_salesforce_url ≠ "" ∧
        pyContains "/AVTRRT__Job__c/" chat.retell_llm_dynamic_variables.job_salesforce_url = true →
        extract_job_id chat = pyHead (pySplit "/" (pyIndex
          (pySplit "/AVTRRT__Job__c/" chat.retell_llm_dynamic_variables.job_salesforce_url) 1))) ∧
      (¬(chat.retell_llm_dynamic_variables.job_salesforce_url ≠ "" ∧
        pyContains "/AVTRRT__Job__c/" chat.retell_llm_dynamic_variables.job_salesforce_url = true) →
        extract_job_id chat =
          (if chat.retell_llm_dynamic_variables.job_ID_18 ≠ "" ∧
              pyStartsWith chat.retell_llm_dynamic_variables.job_ID_18 "a0F" = true then
            chat.retell_llm_dynamic_variables.job_ID_18
          else ""))) := by
  refine ⟨fun chat => ⟨fun h => ?_, ?_⟩, fun chat => ⟨fun h => ?_, fun h => ?_⟩⟩
  · simp only [extract_contact_id]
    rw [if_pos h]
  · simp only [extract_contact_id]
    split
    · next hc => exact Or.inr ⟨hc.2.1, hc.2.2⟩
    · split
      · split
        · next hc => exact Or.inr hc
        · exact Or.inl rfl
      · exact Or.inl rfl
  · simp only [extract_job_id]
    rw [if_pos h]
  · simp only [extract_job_id]
    rw [if_neg h]

/-- Witness for C3 (amended) at a concrete chat with a valid direct
contact id and a URL-bearing job field. -/
theorem c3_witness :
    extract_contact_id chatMetaW = "003ABCDEFGHIJKL" ∧ extract_job_id cJobUrl = "ZZZ" := by
  constructor
  · exact (c3_extractor_order.1 chatMetaW).1 (by decide)
  · exact (c3_extractor_order.2 cJobUrl).1 (by decide)

lemma dl_read_all_length (lines : List String) :
    (dl_read_all lines).length =
      lines.countP (fun l => pyStrip l != "" && json_wf (pyStrip l)) := by
  induction lines with
  | nil => rfl
  | cons hd tl ih =>
    simp only [dl_read_all] at ih ⊢
    simp only [beq_iff_eq] at ih ⊢
    rw [List.filterMap_cons]
    by_cases h1 : pyStrip hd = ""
    · simp [List.countP_cons, h1, ih]
    · by_cases h2 : json_wf (pyStrip hd) = true
      · simp [List.countP_cons, h1, h2, ih]
      · simp [List.countP_cons, h1, h2, ih]

lemma dl_read_all_length_le (lines : List String) :
    (dl_read_all lines).length ≤ dl_count lines := by
  rw [dl_read_all_length, dl_count]
  induction lines with
  | nil => simp
  | cons hd tl ih =>
    simp only [List.countP_cons]
    by_cases h1 : pyStrip hd = "" <;> by_cases h2 : json_wf (pyStrip hd) = true <;>
      simp [h1, h2] <;> omega

lemma dl_read_all_length_eq (lines : List String)
    (h : ∀ l ∈ lines, pyStrip l ≠ "" → json_wf (pyStrip l) = true) :
    (dl_read_all lines).length = dl_count lines := by
  rw [dl_read_all_length, dl_count]
  revert h
  induction lines with
  | nil => intro _; rfl
  | cons hd tl ih =>
    intro h
    have htl := ih (fun l hl => h l (List.mem_cons_of_mem hd hl))
    simp only [List.countP_cons]
    by_cases h1 : pyStrip hd = ""
    · simp [h1, htl]
    · have h2 := h hd (List.mem_cons_self hd tl) h1
      simp [h1, h2, htl]

/-- Claim C4 counterexample: a file holding one malformed (non-JSON)
non-blank line is counted by count() but skipped by read_all(), so the
two disagree. -/
theorem c4_counterexample :
    dl_count ["notjson"] = 1 ∧ (dl_read_all ["notjson"]).length = 0 := by decide

/-- Claim C4 (amended): count() returns the number of non-blank lines
(malformed ones included), so it is an upper bound on the length of
read_all(), with equality exactly when every non-blank line is
well-formed JSON. -/
theorem c4_count_vs_read_all (lines : List String) :
    dl_count lines = (lines.filter (fun l => pyStrip l != "")).length ∧
    (dl_read_all lines).length ≤ dl_count lines ∧
    ((∀ l ∈ lines, pyStrip l ≠ "" → json_wf (pyStrip l) = true) →
      (dl_read_all lines).length = dl_count lines) :=
  ⟨List.countP_eq_length_filter _ _, dl_read_all_length_le lines,
    dl_read_all_length_eq lines⟩

/-- Witness for C4 (amended) on a store with one valid JSON line and one
blank line: count and read_all agree. -/
theorem c4_witness :
    (dl_read_all ["true", "  "]).length = dl_count ["true", "  "] :=
  (c4_count_vs_read_all ["true", "  "]).2.2 (by decide)

lemma except_isOk_iff {α : Type} (e : Except String α) :
    e.isOk = true ↔ ∃ v, e = .ok v := by
  cases e <;> simp [Except.isOk, Except.toBool]

/-- Claim C5: if every create attempt times out, create_job_applicant
makes exactly 3 attempts, 3 credential fetches (one initial, one before
each retry) and 2 backoff sleeps, and returns the failure
'timeout after 3 attempts'; a timeout on an earlier attempt followed by
a response uses that response. -/
theorem c5_create_timeout_retries (o : Oracles) :
    (o.post 0 = .timeout → o.post 1 = .timeout → o.post 2 = .timeout →
      (∀ i, i < 3 → (o.creds i).isOk = true) →
      create_job_applicant o =
        (.ok (false, { error := "timeout after 3 attempts" }),
         { attempts := 3, credCalls := 3, sleeps := 2 })) ∧
    (∀ sc tx rs, (o.creds 0).isOk = true → o.post 0 = .resp sc tx rs →
      (create_job_applicant o).1 = handle_create_response sc tx rs) ∧
    (∀ sc tx rs, (o.creds 0).isOk = true → (o.creds 1).isOk = true →
      o.post 0 = .timeout → o.post 1 = .resp sc tx rs →
      (create_job_applicant o).1 = handle_create_response sc tx rs) ∧
    (∀ sc tx rs, (o.creds 0).isOk = true → (o.creds 1).isOk = true →
      (o.creds 2).isOk = true →
      o.post 0 = .timeout → o.post 1 = .timeout → o.post 2 = .resp sc tx rs →
      (create_job_applicant o).1 = handle_create_response sc tx rs) := by
  refine ⟨fun h0 h1 h2 hc => ?_, fun sc tx rs hc0 h0 => ?_,
    fun sc tx rs hc0 hc1 h0 h1 => ?_, fun sc tx rs hc0 hc1 hc2 h0 h1 h2 => ?_⟩
  · obtain ⟨v0, hv0⟩ := (except_isOk_iff _).mp (hc 0 (by omega))
    obtain ⟨v1, hv1⟩ := (except_isOk_iff _).mp (hc 1 (by omega))
    obtain ⟨v2, hv2⟩ := (except_isOk_iff _).mp (hc 2 (by omega))
    simp [create_job_applicant, hv0, hv1, hv2, h0, h1, h2]
  · obtain ⟨v0, hv0⟩ := (except_isOk_iff _).mp hc0
    simp [create_job_applicant, hv0, h0]
  · obtain ⟨v0, hv0⟩ := (except_isOk_iff _).mp hc0
    obtain ⟨v1, hv1⟩ := (except_isOk_iff _).mp hc1
    simp [create_job_applicant, hv0, hv1, h0, h1]
  · obtain ⟨v0, hv0⟩ := (except_isOk_iff _).mp hc0
    obtain ⟨v1, hv1⟩ := (except_isOk_iff _).mp hc1
    obtain ⟨v2, hv2⟩ := (except_isOk_iff _).mp hc2
    simp [create_job_applicant, hv0, hv1, hv2, h0, h1, h2]

def oAllTimeout : Oracles :=
  { creds := fun _ => .ok ("tok", "https://sf"),
    post := fun _ => .timeout,
    query := fun _ => .ok [] }

/-- Witness for C5 with a concrete oracle timing out on all 3 attempts. -/
theorem c5_witness :
    create_job_applicant oAllTimeout =
      (.ok (false, { error := "timeout after 3 attempts" }),
       { attempts := 3, credCalls := 3, sleeps := 2 }) :=
  (c5_create_timeout_retries oAllTimeout).1 rfl rfl rfl (fun _ _ => rfl)

lemma chunkGo_join (n : Nat) :
    ∀ (l : List String) (cur : List String) (cap : Nat),
      (chunkGo n cap cur l).flatten = cur.reverse ++ l := by
  intro l
  induction l with
  | nil =>
    intro cur cap
    by_cases h : cur.isEmpty = true
    · simp [chunkGo, h, List.isEmpty_iff.mp h]
    · simp [chunkGo, h]
  | cons x xs ih =>
    intro cur cap
    match cap with
    | 0 => simp [chunkGo, ih]
    | cap + 1 => simp [chunkGo, ih]

lemma chunkGo_mem (n : Nat) (hn : 0 < n) :
    ∀ (l : List String) (cur : List String) (cap : Nat), cap + cur.length = n →
      ∀ b ∈ chunkGo n cap cur l, b ≠ [] ∧ b.length ≤ n := by
  intro l
  induction l with
  | nil =>
    intro cur cap hinv b hb
    by_cases h : cur.isEmpty = true
    · simp [chunkGo, h] at hb
    · simp [chunkGo, h] at hb
      subst hb
      constructor
      · simpa [List.isEmpty_iff] using h
      · simp; omega
  | cons x xs ih =>
    intro cur cap hinv b hb
    match cap with
    | 0 =>
      simp only [chunkGo, List.mem_cons] at hb
      rcases hb with hb | hb
      · subst hb
        constructor
        · intro hc
          have : cur.length = 0 := by simpa using congrArg List.length hc
          omega
        · simp; omega
      · exact ih [x] (n - 1) (by simpa using Nat.succ_pred_eq_of_pos hn) b hb
    | cap + 1 =>
      exact ih (x :: cur) cap (by simp at hinv ⊢; omega) b hb

lemma batchPairs_mem (recs : List SFRec) (p : String × String) :
    p ∈ batchPairs recs ↔
      ∃ r ∈ recs, r.contact_candidate ≠ "" ∧ r.job ≠ "" ∧
        p = (pyTake 15 r.contact_candidate, pyTake 15 r.job) := by
  simp only [batchPairs, List.mem_map, List.mem_filter, Bool.and_eq_true,
    decide_eq_true_eq]
  constructor
  · rintro ⟨r, ⟨hr, hcc, hjj⟩, hp⟩
    exact ⟨r, hr, hcc, hjj, hp.symm⟩
  · rintro ⟨r, hr, hcc, hjj, hp⟩
    exact ⟨r, ⟨hr, hcc, hjj⟩, hp.symm⟩

lemma check_fold_mem (query : List String → Except String (List SFRec))
    (bs : List (List String)) (acc : Finset (String × String)) (p : String × String) :
    (p ∈ bs.foldl (fun existing batch =>
      match query batch with
      | .ok records => existing ∪ (batchPairs records).toFinset
      | .error _ => existing) acc) ↔
    (p ∈ acc ∨ ∃ b ∈ bs, ∃ recs, query b = .ok recs ∧ p ∈ batchPairs recs) := by
  induction bs generalizing acc with
  | nil => simp
  | cons hd tl ih =>
    rw [List.foldl_cons, ih]
    cases hq : query hd with
    | ok recs =>
      simp only [hq, Finset.mem_union, List.mem_toFinset, List.mem_cons]
      constructor
      · rintro ((h | h) | ⟨b, hb, rs, hrs, hp⟩)
        · exact Or.inl h
        · exact Or.inr ⟨hd, Or.inl rfl, recs, hq, h⟩
        · exact Or.inr ⟨b, Or.inr hb, rs, hrs, hp⟩
      · rintro (h | ⟨b, (rfl | hb), rs, hrs, hp⟩)
        · exact Or.inl (Or.inl h)
        · rw [hq] at hrs
          cases hrs
          exact Or.inl (Or.inr hp)
        · exact Or.inr ⟨b, hb, rs, hrs, hp⟩
    | error e =>
      simp only [hq, List.mem_cons]
      constructor
      · rintro (h | ⟨b, hb, rs, hrs, hp⟩)
        · exact Or.inl h
        · exact Or.inr ⟨b, Or.inr hb, rs, hrs, hp⟩
      · rintro (h | ⟨b, (rfl | hb), rs, hrs, hp⟩)
        · exact Or.inl h
        · rw [hq] at hrs; cases hrs
        · exact Or.inr ⟨b, hb, rs, hrs, hp⟩

/-- Claim C6: check_existing_applicants deduplicates the input list,
partitions it into non-empty batches of at most 25 ids, issues exactly
one query per batch, and returns precisely the union of the
15-character-normalized pairs found by the successful batch queries;
a failed batch contributes nothing while the other batches are still
queried, and the function is total (fail-open). -/
theorem c6_dedup_batching (contact_ids : List String)
    (query : List String → Except String (List SFRec)) :
    (contact_ids.dedup).Nodup ∧
    (∀ x, x ∈ contact_ids.dedup ↔ x ∈ contact_ids) ∧
    (chunk25 contact_ids.dedup).flatten = contact_ids.dedup ∧
    (∀ b ∈ chunk25 contact_ids.dedup, b ≠ [] ∧ b.length ≤ 25) ∧
    (check_existing_applicants contact_ids query).2 = (chunk25 contact_ids.dedup).length ∧
    (∀ p, p ∈ (check_existing_applicants contact_ids query).1 ↔
      ∃ b ∈ chunk25 contact_ids.dedup, ∃ recs, query b = .ok recs ∧
        ∃ r ∈ recs, r.contact_candidate ≠ "" ∧ r.job ≠ "" ∧
          p = (pyTake 15 r.contact_candidate, pyTake 15 r.job)) := by
  refine ⟨contact_ids.nodup_dedup, fun x => List.mem_dedup, ?_, ?_, rfl, fun p => ?_⟩
  · simpa using chunkGo_join 25 contact_ids.dedup [] 25
  · exact chunkGo_mem 25 (by omega) contact_ids.dedup [] 25 rfl
  · rw [show (check_existing_applicants contact_ids query).1 =
      (chunk25 contact_ids.dedup).foldl (fun existing batch =>
        match query batch with
        | .ok records => existing ∪ (batchPairs records).toFinset
        | .error _ => existing) ∅ from rfl]
    rw [check_fold_mem]
    simp only [Finset.not_mem_empty, false_or]
    constructor
    · rintro ⟨b, hb, recs, hrecs, hp⟩
      exact ⟨b, hb, recs, hrecs, (batchPairs_mem recs p).mp hp⟩
    · rintro ⟨b, hb, recs, hrecs, hp⟩
      exact ⟨b, hb, recs, hrecs, (batchPairs_mem recs p).mpr hp⟩

def sfRecW : SFRec := { contact_candidate := "003WITNESSCONTACT", job := "a0FWITNESSJOB" }

def queryW : List String → Except String (List SFRec) := fun _ => .ok [sfRecW]

/-- Witness for C6: a normalized pair found by a concrete batch query is
in the returned set. -/
theorem c6_witness :
    ("003WITNESSCONTA", "a0FWITNESSJOB") ∈
      (check_existing_applicants ["c1", "c1", "c2"] queryW).1 :=
  ((c6_dedup_batching ["c1", "c1", "c2"] queryW).2.2.2.2.2
    ("003WITNESSCONTA", "a0FWITNESSJOB")).mpr
    ⟨["c1", "c2"], by decide, [sfRecW], rfl, sfRecW, by decide, by decide, by decide, by decide⟩

def chat0 : Chat :=
  { chat_id := "chat_1", agent_name := "Other Agent", chat_status := "ended",
    chat_analysis :=
      { custom_analysis_data := some { qualification_result := "fully_qualified" } },
    retell_llm_dynamic_variables :=
      { candidate_id := some "003ABCDEFGHIJKL", job_ID_18 := "a0F000000000001" } }

def oNoCreds : Oracles :=
  { creds := fun _ => .error "no credentials configured",
    post := fun _ => .timeout,
    query := fun _ => .error "no credentials configured" }

/-- Claim C1 counterexample: process_chat_webhook has no exception
handler — when credential resolution raises during the create step, the
exception propagates to the caller instead of being converted into a
result with action 'error'. -/
theorem c1_counterexample :
    process_chat_webhook chat0 oNoCreds = .error "no credentials configured" := rfl

/-- Claim C1 (amended): exceptions do escape process_chat_webhook; its
callers catch them — webhook_retell converts any orchestrator exception
into an 'error' stats event carrying the exception's message, dead-letters
the event, and still answers 204; retry_failed converts a per-entry
exception into an 'error' result row. -/
theorem c1_exception_handling :
    (∀ api_key hmacFn parseFn o raw_body sig payload e,
      verify_retell_signature api_key hmacFn raw_body sig = true →
      parseFn raw_body = some payload →
      payload.event = "chat_analyzed" →
      process_chat_webhook payload.chat o = .error e →
      webhook_retell api_key hmacFn parseFn o raw_body sig =
        { status := 204, orch := 1, events := [("error", e)],
          dl := [dl_append_entry payload.chat {} e] }) ∧
    (∀ entries o entry e, entry ∈ entries →
      process_chat_webhook entry.chat_payload o = .error e →
      RetryRow.mk entry.chat_id "error" (pyTake 200 e) ∈ (retry_failed entries o).results) := by
  constructor
  · intro api_key hmacFn parseFn o raw_body sig payload e hv hp he hr
    simp [webhook_retell, hv, hp, he, hr]
  · intro entries o entry e hmem hr
    have hne : entries.isEmpty = false := by
      cases entries
      · cases hmem
      · rfl
    simp only [retry_failed, hne, Bool.false_eq_true, if_false]
    exact List.mem_map.mpr ⟨entry, hmem, by rw [hr]⟩

def hmacW : String → String → String := fun _ _ => "digest"

def payload0 : Payload := { event := "chat_analyzed", chat := chat0 }

def parseE0 : String → Option Payload := fun _ => some payload0

/-- Witness for C1 (amended): a concrete webhook call whose orchestrator
run raises is answered 204 with the exception dead-lettered. -/
theorem c1_witness :
    webhook_retell "" hmacW parseE0 oNoCreds "body" "" =
      { status := 204, orch := 1,
        events := [("error", "no credentials configured")],
        dl := [dl_append_entry chat0 {} "no credentials configured"] } :=
  c1_exception_handling.1 "" hmacW parseE0 oNoCreds "body" "" payload0
    "no credentials configured" (by decide) rfl rfl rfl

def oHttp500 : Oracles :=
  { creds := fun _ => .ok ("tok", "https://sf"),
    post := fun _ => .resp 500 "boom" [],
    query := fun _ => .ok [] }

def entryE : DLEntry := { chat_id := "chat_1", chat_payload := chat0 }

/-- Claim C2 counterexample: a replay run that ends with action 'error'
appends nothing to the Dead-Letter Store — the store is archived and
left empty, so the failed entry survives only in the archive. -/
theorem c2_counterexample :
    (retry_failed [entryE] oHttp500).failed = 1 ∧
    (retry_failed [entryE] oHttp500).dl_appends = [] ∧
    (retry_failed [entryE] oHttp500).store = [] := by decide

/-- Claim C2 (amended): in the webhook path every run that ends with
action 'error' — whether a reported create failure or a caught
exception — is appended to the Dead-Letter Store together with the
event; the replay path appends nothing: it archives the whole store and
leaves it empty. -/
theorem c2_dead_letter_paths :
    (∀ api_key hmacFn parseFn o raw_body sig payload r,
      verify_retell_signature api_key hmacFn raw_body sig = true →
      parseFn raw_body = some payload →
      payload.event = "chat_analyzed" →
      process_chat_webhook payload.chat o = .ok r →
      r.action = "error" →
      (webhook_retell api_key hmacFn parseFn o raw_body sig).dl =
        [dl_append_entry payload.chat
          { contact_id := r.contact_id, job_id := r.job_id } r.detail]) ∧
    (∀ api_key hmacFn parseFn o raw_body sig payload e,
      verify_retell_signature api_key hmacFn raw_body sig = true →
      parseFn raw_body = some payload →
      payload.event = "chat_analyzed" →
      process_chat_webhook payload.chat o = .error e →
      (webhook_retell api_key hmacFn parseFn o raw_body sig).dl =
        [dl_append_entry payload.chat {} e]) ∧
    (∀ entries o, (retry_failed entries o).dl_appends = [] ∧
      (entries ≠ [] → (retry_failed entries o).archived = entries ∧
        (retry_failed entries o).store = [])) := by
  refine ⟨?_, ?_, ?_⟩
  · intro api_key hmacFn parseFn o raw_body sig payload r hv hp he hr hact
    simp [webhook_retell, hv, hp, he, hr, hact]
  · intro api_key hmacFn parseFn o raw_body sig payload e hv hp he hr
    simp [webhook_retell, hv, hp, he, hr]
  · intro entries o
    constructor
    · simp only [retry_failed]
      split <;> rfl
    · intro hne
      have hne' : entries.isEmpty = false := by
        cases entries
        · exact absurd rfl hne
        · rfl
      simp only [retry_failed, hne', Bool.false_eq_true, if_false]
      constructor <;> first | rfl | trivial

def rE : PResult :=
  { chat_id := "chat_1", action := "error", detail := "HTTP 500: boom",
    contact_id := "003ABCDEFGHIJKL", job_id := "a0F000000000001",
    sf_result := { error := "HTTP 500: boom" } }

/-- Witness for C2 (amended): a concrete webhook run whose create fails
with HTTP 500 appends the event and attempted pair to the store. -/
theorem c2_witness :
    (webhook_retell "" hmacW parseE0 oHttp500 "body" "").dl =
      [dl_append_entry chat0
        { contact_id := "003ABCDEFGHIJKL", job_id := "a0F000000000001" }
        "HTTP 500: boom"] :=
  c2_dead_letter_paths.1 "" hmacW parseE0 oHttp500 "body" "" payload0 rE
    (by decide) rfl rfl rfl rfl

/-- Claim C9: when the shared secret is unset, verification accepts every
request; when it is set, a request with an absent or non-matching
signature header is rejected with 401 before the orchestrator runs and
with no stats events and no dead-letter append. -/
theorem c9_signature_verification :
    (∀ hmacFn body sig, verify_retell_signature "" hmacFn body sig = true) ∧
    (∀ api_key hmacFn parseFn o body sig, api_key ≠ "" →
      (sig = "" ∨ hmacFn api_key body ≠ sig) →
      webhook_retell api_key hmacFn parseFn o body sig =
        { status := 401, events := [], dl := [], orch := 0 }) := by
  constructor
  · intro hmacFn body sig
    simp [verify_retell_signature]
  · intro api_key hmacFn parseFn o body sig hk hs
    have hv : verify_retell_signature api_key hmacFn body sig = false := by
      rcases hs with hsig | hne
      · simp [verify_retell_signature, hk, hsig]
      · by_cases hsig : sig = ""
        · simp [verify_retell_signature, hk, hsig]
        · simp [verify_retell_signature, hk, hsig, beq_iff_eq, hne]
    simp [webhook_retell, hv]

/-- Witness for C9: a concrete request with the secret configured and an
empty signature header is rejected without side effects. -/
theorem c9_witness :
    webhook_retell "secret" hmacW parseE0 oHttp500 "body" "" =
      { status := 401, events := [], dl := [], orch := 0 } :=
  c9_signature_verification.2 "secret" hmacW parseE0 oHttp500 "body" ""
    (by decide) (Or.inl rfl)

lemma sf_mode34_ok {env : SfEnv} {o : SfOracle} {now netAcc : Nat}
    {pr : String × String} {upd : Option TokenState} {tr : SfTrace}
    (h : sf_mode34 env o now netAcc = (.ok pr, upd, tr)) :
    upd = some { cached_token := some pr.1, cached_instance := pr.2,
                 token_fetched_at := some now } := by
  unfold sf_mode34 at h
  split at h
  · split at h
    · simp_all
    · rw [Prod.mk.injEq, Prod.mk.injEq] at h
      obtain ⟨h1, h2, _⟩ := h
      cases Except.ok.inj h1
      exact h2.symm
  · split at h
    · split at h
      · simp_all
      · rw [Prod.mk.injEq, Prod.mk.injEq] at h
        obtain ⟨h1, h2, _⟩ := h
        cases Except.ok.inj h1
        exact h2.symm
    · simp_all

lemma sf_chain_ok {env : SfEnv} {o : SfOracle} {now : Nat}
    {pr : String × String} {upd : Option TokenState} {tr : SfTrace}
    (h : sf_chain env o now = (.ok pr, upd, tr)) :
    upd = some { cached_token := some pr.1, cached_instance := pr.2,
                 token_fetched_at := some now } := by
  unfold sf_chain at h
  split at h
  · rw [Prod.mk.injEq, Prod.mk.injEq] at h
    obtain ⟨h1, h2, _⟩ := h
    cases Except.ok.inj h1
    exact h2.symm
  · split at h
    · split at h
      · split at h
        · split at h
          · rw [Prod.mk.injEq, Prod.mk.injEq] at h
            obtain ⟨h1, h2, _⟩ := h
            cases Except.ok.inj h1
            exact h2.symm
          · exact sf_mode34_ok h
        · exact sf_mode34_ok h
      · exact sf_mode34_ok h
    · exact sf_mode34_ok h
    · exact sf_mode34_ok h

lemma get_creds_ok_cache {env : SfEnv} {o : SfOracle} {now : Nat}
    {st : TokenState} {pr : String × String} {st' : TokenState} {tr : SfTrace}
    (h : get_salesforce_credentials env o now st = (.ok pr, st', tr)) :
    st'.cached_token = some pr.1 ∧ st'.cached_instance = pr.2 := by
  unfold get_salesforce_credentials at h
  split at h
  · next tok t heq1 heq2 =>
    split at h
    · rw [Prod.mk.injEq, Prod.mk.injEq] at h
      obtain ⟨h1, h2, _⟩ := h
      have hpr := Except.ok.inj h1
      subst h2
      rw [heq1]
      cases hpr
      exact ⟨rfl, rfl⟩
    · rcases hchain : sf_chain env o now with ⟨res, upd, tr2⟩
      rw [hchain] at h
      rw [Prod.mk.injEq, Prod.mk.injEq] at h
      obtain ⟨h1, h2, _⟩ := h
      subst h1
      have hupd := sf_chain_ok hchain
      subst hupd
      subst h2
      exact ⟨rfl, rfl⟩
  · rcases hchain : sf_chain env o now with ⟨res, upd, tr2⟩
    rw [hchain] at h
    rw [Prod.mk.injEq, Prod.mk.injEq] at h
    obtain ⟨h1, h2, _⟩ := h
    subst h1
    have hupd := sf_chain_ok hchain
    subst hupd
    subst h2
    exact ⟨rfl, rfl⟩

def envC7 : SfEnv :=
  { sf_client_id := "ci", sf_client_secret := "cs", sf_refresh_token := "rt" }

def oC7 : SfOracle :=
  { oauth := .ok { status := 200, access_token := "", instance_url := "https://sf" } }

/-- Claim C7 counterexample: when refresh-token OAuth answers with an
empty access token, resolve() returns it successfully, but the cache-hit
check treats the cached empty token as absent (Python truthiness), so a
second resolve() within the TTL window re-runs the strategy chain and
issues another network call instead of zero. -/
theorem c7_counterexample :
    (get_salesforce_credentials envC7 oC7 0 {}).1 = .ok ("", "https://sf") ∧
    (get_salesforce_credentials envC7 oC7 0 {}).2.1.token_fetched_at = some 0 ∧
    (get_salesforce_credentials envC7 oC7 0
      (get_salesforce_credentials envC7 oC7 0 {}).2.1).2.2.network = 1 ∧
    (get_salesforce_credentials envC7 oC7 0
      (get_salesforce_credentials envC7 oC7 0 {}).2.1).2.2.strategies = 3 := by
  decide

/-- Claim C7 (amended): after a successful resolve() whose token is
non-empty, a second resolve() within the TTL window returns the same
(token, endpoint) pair from the cache with zero network calls and no
strategy evaluation; after invalidate(), and likewise after TTL expiry,
the next resolve() behaves exactly like a resolve() on a fresh empty
cache — the full strategy chain re-runs. -/
theorem c7_credential_cache :
    (∀ (env : SfEnv) (o : SfOracle) (now : Nat) (st : TokenState) pr st' tr,
      get_salesforce_credentials env o now st = (.ok pr, st', tr) →
      pr.1 ≠ "" →
      ∀ (curr t : Nat), st'.token_fetched_at = some t →
        curr - t < env.sf_token_cache_ttl →
        get_salesforce_credentials env o curr st' = (.ok pr, st', {})) ∧
    (∀ (env : SfEnv) (o : SfOracle) (now : Nat) (st : TokenState),
      (get_salesforce_credentials env o now (invalidate_token_cache st)).1 =
        (get_salesforce_credentials env o now {}).1 ∧
      (get_salesforce_credentials env o now (invalidate_token_cache st)).2.2 =
        (get_salesforce_credentials env o now {}).2.2) ∧
    (∀ (env : SfEnv) (o : SfOracle) (now : Nat) (st : TokenState) (tok : String) (t : Nat),
      st.cached_token = some tok → st.token_fetched_at = some t →
      env.sf_token_cache_ttl ≤ now - t →
      (get_salesforce_credentials env o now st).1 =
        (get_salesforce_credentials env o now {}).1 ∧
      (get_salesforce_credentials env o now st).2.2 =
        (get_salesforce_credentials env o now {}).2.2) := by
  refine ⟨?_, ?_, ?_⟩
  · intro env o now st pr st' tr h hne curr t hft hlt
    obtain ⟨hct, hci⟩ := get_creds_ok_cache h
    rw [show get_salesforce_credentials env o curr st' =
        (match st'.cached_token, st'.token_fetched_at with
          | some tok, some t0 =>
            if tok ≠ "" ∧ curr - t0 < env.sf_token_cache_ttl then
              (.ok (tok, st'.cached_instance), st', {})
            else
              ((sf_chain env o curr).1, (sf_chain env o curr).2.1.getD st',
                (sf_chain env o curr).2.2)
          | _, _ =>
            ((sf_chain env o curr).1, (sf_chain env o curr).2.1.getD st',
              (sf_chain env o curr).2.2)) from rfl]
    rw [hct, hft]
    simp only [hne, hlt, and_self, ne_eq, not_false_eq_true, if_true, ite_true]
    rw [hci]
  · intro env o now st
    exact ⟨rfl, rfl⟩
  · intro env o now st tok t hct hft hge
    have hnlt : ¬(now - t < env.sf_token_cache_ttl) := by omega
    unfold get_salesforce_credentials
    rw [hct, hft]
    simp only [hnlt, and_false, if_false, ite_false]
    exact ⟨trivial, trivial⟩

def envW : SfEnv := { sf_access_token := "tokW", sf_instance_url := "https://w" }

def oW : SfOracle := {}

def stW : TokenState :=
  { cached_token := some "tokW", cached_instance := "https://w",
    token_fetched_at := some 0 }

/-- Witness for C7 (amended): a concrete static-token resolve() followed
by a cache hit five seconds later with an empty trace. -/
theorem c7_witness :
    get_salesforce_credentials envW oW 5 stW = (.ok ("tokW", "https://w"), stW, {}) :=
  c7_credential_cache.1 envW oW 0 {} ("tokW", "https://w") stW
    { network := 0, strategies := 1 } (by decide) (by decide) 5 0 rfl (by decide)
